import Mathlib

/-!
Shallow embedding of the grafana-dashboard-loader reconciliation core
(`pkg/controller/dashboard_controller.go`) and proofs about it.

Modelling conventions:
* Go `interface{}` values decoded by `encoding/json` are modelled by `JValue`.
  The controller never inspects nested arrays/objects of a dashboard document
  (it only reads/writes the top-level `uid`, `id` and `title` keys), so
  scalar payload values suffice for every property below.
* A Go `map[string]interface{}` is modelled as an association list `JObj`;
  indexing a missing key yields the zero value (`JValue.null`), exactly as a
  Go map returns `nil` for an absent key (and JSON `null` is also stored as
  `nil`, so the two are indistinguishable, as in Go).
* `json.Unmarshal` of a payload string is modelled by its outcome: a data
  entry carries `Option JObj`, `none` meaning the unmarshal fails.
* A failed Go type assertion (`x.(string)`, `x.(float64)`) panics; panics are
  modelled as `Except.error` results, and unbounded recursion as the
  `stackOverflow` error under a fuel bound.
* HTTP responses delivered by `util.SetRequest` are inputs: the folder
  list/create response bodies and a stream of upsert responses are passed in
  as parameters, and the requests the controller issues are returned as an
  event trace.
-/

namespace Gdl

/-- A JSON value as decoded into a Go `interface{}` by `encoding/json`. -/
inductive JValue where
  | null
  | str (s : String)
  | num (n : Int)
  | bool (b : Bool)
deriving DecidableEq, Repr

/-- A decoded Go `map[string]interface{}` (top-level JSON object). -/
abbrev JObj := List (String × JValue)

/-- Go map indexing `m[k]`: the stored value, or the zero value `nil`
(modelled `JValue.null`) when the key is absent. -/
def JObj.get : JObj → String → JValue
  | [], _ => .null
  | (k', v) :: rest, k => if k' = k then v else JObj.get rest k

/-- Go map assignment `m[k] = v`. -/
def JObj.set : JObj → String → JValue → JObj
  | [], k, v => [(k, v)]
  | (k', v') :: rest, k, v =>
      if k' = k then (k, v) :: rest else (k', v') :: JObj.set rest k v

/-- A Go panic reached by the controller code. -/
inductive GoPanic where
  | interfaceConversion
  | stackOverflow
deriving DecidableEq, Repr

/-- Go type assertion `x.(string)`: panics unless the dynamic type is string. -/
def typeAssertString : JValue → Except GoPanic String
  | .str s => .ok s
  | _ => .error .interfaceConversion

/-- Go type assertion `x.(float64)`: panics unless the dynamic type is a JSON
number (which `encoding/json` always decodes as `float64`). The numeric value
itself is modelled as an integer; the controller only compares ids with the
`0` sentinel and passes them through. -/
def typeAssertNum : JValue → Except GoPanic Int
  | .num n => .ok n
  | _ => .error .interfaceConversion

/-- Model of `strings.ToLower` (the labels compared in the controller are ASCII). -/
def strToLower (s : String) : String :=
  String.mk (s.toList.map Char.toLower)

/-- Whether `needle` occurs at the head of `hay`. -/
def charsHasPre : List Char → List Char → Bool
  | [], _ => true
  | _ :: _, [] => false
  | a :: as, b :: bs => a = b && charsHasPre as bs

/-- Whether `needle` occurs somewhere in `hay`. -/
def charsHasSub (needle : List Char) : List Char → Bool
  | [] => needle.isEmpty
  | c :: rest => charsHasPre needle (c :: rest) || charsHasSub needle rest

/-- Model of `strings.Contains s sub`. -/
def strContains (s sub : String) : Bool :=
  charsHasSub sub.toList s.toList

/-- One entry of `ObjectMeta.OwnerReferences`. -/
structure OwnerReference where
  name : String
  kind : String
deriving DecidableEq, Repr

/-- The observed `corev1.ConfigMap`, restricted to the fields the controller
reads. `data` maps each key to the `json.Unmarshal` outcome of its payload
string (`none` = malformed JSON). Label/annotation maps are association
lists; Go map indexing on them is `mget` below. -/
structure ConfigMap where
  name : String
  nspace : String
  labels : List (String × String)
  annotats : List (String × String)
  data : List (String × Option JObj)
  ownerReferences : List OwnerReference

/-- Go `map[string]string` indexing: the value, or `""` when absent. -/
def mget (m : List (String × String)) (k : String) : String :=
  (m.lookup k).getD ""

/-- The `grafanaURI` constant from the source. -/
def grafanaURI : String := "http://127.0.0.1:3001"

/-- Modelled from the spec: `util.GenerateUID` lives in `pkg/util`, which is
not part of the provided source; spec §4.3 specifies only that it is a pure,
deterministic derivation of a uid from `(name, namespace)` (e.g. a hash of
their concatenation). The concrete hash is irrelevant to every claim, which
use the function only as an opaque deterministic map. -/
def generateUID (name nspace : String) : String :=
  name ++ "-" ++ nspace

/-- Embedding of `isDesiredDashboardConfigmap` (lines 56-75). The informer hands it a
`*corev1.ConfigMap`; the leading interface type assertion always succeeds on
the events modelled here, so the embedding takes the ConfigMap directly. -/
def isDesiredDashboardConfigmap (cm : ConfigMap) : Bool :=
  if strToLower (mget cm.labels "grafana-custom-dashboard") = "true" then
    true
  else
    cm.ownerReferences.any (fun owner =>
      strContains cm.name "grafana-dashboard" &&
        owner.kind = "MultiClusterObservability")

/-- The spec's description of the selection filter (§4.1), stated
independently of the loop in the source: accept iff the custom-dashboard
label is `"true"` case-insensitively, or the name contains
`"grafana-dashboard"` and some owner reference has kind
`MultiClusterObservability`. -/
def isManagedSpec (cm : ConfigMap) : Prop :=
  strToLower (mget cm.labels "grafana-custom-dashboard") = "true" ∨
    (strContains cm.name "grafana-dashboard" = true ∧
      ∃ owner ∈ cm.ownerReferences, owner.kind = "MultiClusterObservability")

/-- Embedding of `deleteDashboard`'s loop over `cm.Data` (lines 225-247). Go map
iteration order is unspecified; the model fixes one order (the list order).
The result is the list of URLs the controller sends DELETE requests to; the
delete responses influence logging only, so they do not appear. A `none`
payload is an unmarshal error: the code logs and `return`s, ending the whole
loop. -/
def deleteGo (cm : ConfigMap) : List (String × Option JObj) → Except GoPanic (List String)
  | [] => .ok []
  | (_, payload) :: rest =>
    match payload with
    | none => .ok []
    | some dashboard =>
      -- uid, _ := util.GenerateUID(name, namespace); overridden when the
      -- payload has a non-nil uid, via an unguarded .(string) assertion.
      let derived := generateUID cm.name cm.nspace
      match (if JObj.get dashboard "uid" ≠ JValue.null
             then typeAssertString (JObj.get dashboard "uid")
             else .ok derived) with
      | .error p => .error p
      | .ok uid =>
        match deleteGo cm rest with
        | .error p => .error p
        | .ok urls => .ok ((grafanaURI ++ "/api/dashboards/uid/" ++ uid) :: urls)

/-- Embedding of `deleteDashboard` (lines 224-249). -/
def deleteDashboard (cm : ConfigMap) : Except GoPanic (List String) :=
  deleteGo cm cm.data

/-- The loop body of `hasCustomFolder` (lines 135-139): return the first
folder whose `title` equals `folderTitle` (the `==` between an `interface{}`
and a string holds exactly when the value is that string), extracting its
`id` with an unguarded `.(float64)` assertion; `0` when none matches. -/
def hasCustomFolderLoop (folderTitle : String) : List JObj → Except GoPanic Int
  | [] => .ok 0
  | folder :: rest =>
    if JObj.get folder "title" = JValue.str folderTitle
    then typeAssertNum (JObj.get folder "id")
    else hasCustomFolderLoop folderTitle rest

/-- Embedding of `hasCustomFolder` (lines 124-141). `listBody` is the `json.Unmarshal`
outcome of the `GET /api/folders` response body into
`[]map[string]interface{}` (`none` = unmarshal error, which the code logs
and turns into the `0` sentinel). -/
def hasCustomFolder (listBody : Option (List JObj)) (folderTitle : String) :
    Except GoPanic Int :=
  match listBody with
  | none => .ok 0
  | some folders => hasCustomFolderLoop folderTitle folders

/-- Embedding of `createCustomFolder` (lines 143-157). `createBody` is the unmarshal
outcome of the `POST /api/folders` response body; the POST is only issued
(and `createBody` only consulted) when the lookup returned the `0`
sentinel. The created folder's `id` is read with an unguarded `.(float64)`
assertion. -/
def createCustomFolder (listBody : Option (List JObj)) (createBody : Option JObj)
    (folderTitle : String) : Except GoPanic Int :=
  match hasCustomFolder listBody folderTitle with
  | .error p => .error p
  | .ok folderID =>
    if folderID = 0 then
      match createBody with
      | none => .ok 0
      | some folder => typeAssertNum (JObj.get folder "id")
    else
      .ok folderID

/-- Folder-title derivation (lines 164-168): the folder-override
annotation's value when present and non-empty, else `"Custom"`. -/
def deriveFolderTitle (cm : ConfigMap) : String :=
  match cm.annotats.lookup "observability.open-cluster-management.io/dashboard-folder" with
  | some t => if t = "" then "Custom" else t
  | none => "Custom"

/-- Lines 178-188: parse result already in hand, inject the derived `uid`
when the payload's `uid` is `nil` (absent or JSON null), then null out
`id`. -/
def buildDashboard (cm : ConfigMap) (dashboard : JObj) : JObj :=
  let d :=
    if JObj.get dashboard "uid" = JValue.null
    then JObj.set dashboard "uid" (JValue.str (generateUID cm.name cm.nspace))
    else dashboard
  JObj.set d "id" JValue.null

/-- The body of one `POST /api/dashboards/db` submission (lines 189-193),
keeping the structured fields rather than their `json.Marshal` bytes
(`json.Marshal` cannot fail on a map of these value types, so the marshal
error branch at line 196 is dead). -/
structure UpsertReq where
  folderId : Int
  overwrite : Bool
  dashboard : JObj
deriving DecidableEq, Repr

/-- An upsert response as seen through `util.SetRequest`: the status code
and the response body (only ever inspected via `strings.Contains`). -/
structure UpsertResp where
  status : Nat
  body : String
deriving Repr

/-- An outbound effect of `updateDashboard`: one `createCustomFolder`
invocation (folder resolve-or-create, encapsulating its GET and optional
POST), or one dashboard upsert POST. -/
inductive Event where
  | folderResolve (title : String)
  | upsertPost (req : UpsertReq)
deriving DecidableEq, Repr

def Event.isResolve : Event → Bool
  | .folderResolve _ => true
  | _ => false

/-- Control position inside `updateDashboard`: at function entry (folder
phase, lines 160-175), or inside the `range` loop with the remaining data
entries (lines 176-219). -/
inductive Phase where
  | start
  | loop (entries : List (String × Option JObj))

/-- Embedding of `updateDashboard` (lines 160-221), fuelled. `resps` is the stream of
upsert responses, consumed in submission order across the recursion (`k` is
the index of the next one). The result is the event trace and the next
response index; Go panics and fuel exhaustion (the Go code's unbounded
recursion has no such bound) are `Except.error`s. A `none` data entry is an
unmarshal error: logged and `return`ed, ending the invocation (line 182).
On a 412 response whose body contains `"version-mismatch"` the code
recursively re-invokes `updateDashboard(obj, true)` (line 207) and then
continues the loop with the remaining entries; all other non-200 responses
are logged and the loop continues. -/
def updStep (lb : Option (List JObj)) (cb : Option JObj) (resps : Nat → UpsertResp)
    (cm : ConfigMap) : Nat → Bool → Int → Phase → Nat → Except GoPanic (List Event × Nat)
  | 0, _, _, _, _ => .error .stackOverflow
  | fuel + 1, overwrite, _folderID, .start, k =>
    -- folderID := 0.0; general-folder label check (lines 161-163)
    let gl := mget cm.labels "general-folder"
    if gl = "" ∨ strToLower gl ≠ "true" then
      let title := deriveFolderTitle cm
      match createCustomFolder lb cb title with
      | .error p => .error p
      | .ok fid =>
        if fid = 0 then
          .ok ([.folderResolve title], k)     -- lines 171-174: log and return
        else
          match updStep lb cb resps cm fuel overwrite fid (.loop cm.data) k with
          | .error p => .error p
          | .ok (evs, k') => .ok (.folderResolve title :: evs, k')
    else
      updStep lb cb resps cm fuel overwrite 0 (.loop cm.data) k
  | _ + 1, _, _, .loop [], k => .ok ([], k)
  | fuel + 1, overwrite, folderID, .loop ((_, payload) :: rest), k =>
    match payload with
    | none => .ok ([], k)                     -- lines 180-183: log and return
    | some dashboard =>
      let req : UpsertReq := ⟨folderID, overwrite, buildDashboard cm dashboard⟩
      let resp := resps k
      -- continue the loop with the remaining entries after this response
      let cont : Nat → Except GoPanic (List Event × Nat) := fun k' =>
        match updStep lb cb resps cm fuel overwrite folderID (.loop rest) k' with
        | .error p => .error p
        | .ok (evs, k'') => .ok (.upsertPost req :: evs, k'')
      if resp.status ≠ 200 then
        if resp.status = 412 then
          if strContains resp.body "version-mismatch" then
            -- line 207: updateDashboard(obj, true), then the loop continues
            match updStep lb cb resps cm fuel true 0 .start (k + 1) with
            | .error p => .error p
            | .ok (evs₁, k₁) =>
              match updStep lb cb resps cm fuel overwrite folderID (.loop rest) k₁ with
              | .error p => .error p
              | .ok (evs₂, k₂) => .ok (.upsertPost req :: (evs₁ ++ evs₂), k₂)
          else
            cont (k + 1)                      -- name-exists / other: log only
        else
          cont (k + 1)                        -- other status: log only
      else
        cont (k + 1)                          -- 200: log success

/-- The `updateDashboard(obj, overwrite)` entry point: local `folderID` starts
at the `0` sentinel and control is at the folder phase. -/
def updateDashboard (fuel : Nat) (lb : Option (List JObj)) (cb : Option JObj)
    (resps : Nat → UpsertResp) (cm : ConfigMap) (overwrite : Bool) (k : Nat) :
    Except GoPanic (List Event × Nat) :=
  updStep lb cb resps cm fuel overwrite 0 .start k

/-- Modelled from the spec: the dashboard service's folder API (§6, an
external collaborator). Its observable state is the list of existing folders
(`(id, title)` pairs) plus the id it will assign to the next created
folder. -/
structure GrafanaState where
  folders : List (Int × String)
  nextId : Int
deriving DecidableEq, Repr

/-- Modelled from the spec: the `GET /api/folders` response body (a JSON
array of `{id, title, ...}` objects), already unmarshalled. -/
def GrafanaState.listBody (st : GrafanaState) : Option (List JObj) :=
  some (st.folders.map (fun f => [("id", JValue.num f.1), ("title", JValue.str f.2)]))

/-- Modelled from the spec: the `POST /api/folders` response body for a
create of `title` (a JSON `{id, title, ...}` object), already
unmarshalled. -/
def GrafanaState.createBody (st : GrafanaState) (title : String) : Option JObj :=
  some [("id", JValue.num st.nextId), ("title", JValue.str title)]

/-- Modelled from the spec: the service state after a folder create. -/
def GrafanaState.afterCreate (st : GrafanaState) (title : String) : GrafanaState :=
  ⟨st.folders ++ [(st.nextId, title)], st.nextId + 1⟩

/-- Behaviour of `createCustomFolder` run against the folder service in state `st`: the
response bodies it consumes are rendered from `st`, and the state advances
exactly when the `POST /api/folders` is issued, i.e. when the lookup
returned the `0` sentinel (line 145). -/
def resolveOrCreateFolder (st : GrafanaState) (title : String) :
    Except GoPanic (Int × GrafanaState) :=
  match createCustomFolder st.listBody (st.createBody title) title with
  | .error p => .error p
  | .ok fid =>
    match hasCustomFolder st.listBody title with
    | .error p => .error p
    | .ok looked =>
      if looked = 0 then .ok (fid, st.afterCreate title) else .ok (fid, st)

/-! ## Basic lemmas about the Go-map model -/

theorem JObj.get_set_self (m : JObj) (k : String) (v : JValue) :
    JObj.get (JObj.set m k v) k = v := by
  induction m with
  | nil => simp [JObj.set, JObj.get]
  | cons hd tl ih =>
    rcases hd with ⟨k', v'⟩
    by_cases h : k' = k
    · simp [JObj.set, h, JObj.get]
    · simp [JObj.set, h, JObj.get, ih]

theorem JObj.get_set_of_ne (m : JObj) {k k' : String} (v : JValue) (h : k ≠ k') :
    JObj.get (JObj.set m k v) k' = JObj.get m k' := by
  induction m with
  | nil => simp [JObj.set, JObj.get, h]
  | cons hd tl ih =>
    rcases hd with ⟨k₀, v₀⟩
    by_cases h₀ : k₀ = k
    · subst h₀; simp [JObj.set, JObj.get, h]
    · simp [JObj.set, h₀, JObj.get, ih]

theorem buildDashboard_get_id (cm : ConfigMap) (d : JObj) :
    JObj.get (buildDashboard cm d) "id" = JValue.null := by
  unfold buildDashboard
  split <;> exact JObj.get_set_self _ _ _

theorem buildDashboard_get_uid (cm : ConfigMap) (d : JObj) :
    JObj.get (buildDashboard cm d) "uid" =
      (if JObj.get d "uid" = JValue.null
       then JValue.str (generateUID cm.name cm.nspace)
       else JObj.get d "uid") := by
  unfold buildDashboard
  rw [JObj.get_set_of_ne _ _ (by decide : ("id" : String) ≠ "uid")]
  split
  · rw [JObj.get_set_self]
  · rfl

/-! ## Claim C5: the selection filter -/

/-- C5: `isDesiredDashboardConfigmap` is a pure predicate that accepts a
resource iff its `grafana-custom-dashboard` label equals `"true"`
case-insensitively, or its name contains the substring `"grafana-dashboard"`
and some owner reference has kind `MultiClusterObservability`; every other
resource is rejected. -/
theorem selection_filter_iff (cm : ConfigMap) :
    isDesiredDashboardConfigmap cm = true ↔ isManagedSpec cm := by
  unfold isDesiredDashboardConfigmap isManagedSpec
  split
  · rename_i h
    exact ⟨fun _ => Or.inl h, fun _ => rfl⟩
  · rename_i h
    simp only [List.any_eq_true, Bool.and_eq_true, decide_eq_true_eq]
    constructor
    · rintro ⟨o, ho, hc, hk⟩
      exact Or.inr ⟨hc, o, ho, hk⟩
    · rintro (hl | ⟨hc, o, ho, hk⟩)
      · exact absurd hl h
      · exact ⟨o, ho, hc, hk⟩

/-- Instance of `selection_filter_iff` at the spec's truth-table row
`label grafana-custom-dashboard: "TRUE" → true`. -/
theorem selection_filter_iff_witness :
    isDesiredDashboardConfigmap
        ⟨"x", "ns", [("grafana-custom-dashboard", "TRUE")], [], [], []⟩ = true ↔
      isManagedSpec ⟨"x", "ns", [("grafana-custom-dashboard", "TRUE")], [], [], []⟩ :=
  selection_filter_iff _

/-! ## Claim C9: unguarded uid type assertion in the deletion engine -/

/-- A one-entry resource whose payload parses to `{"uid": 5}`. -/
def cmC9 : ConfigMap :=
  ⟨"n", "ns", [], [], [("k", some [("uid", JValue.num 5)])], []⟩

/-- C9: the deletion engine is not total: on a payload that parses
successfully but whose `"uid"` is a JSON number, the unguarded
`dashboard["uid"].(string)` assertion panics (modelled as
`GoPanic.interfaceConversion`) instead of reporting a data error. -/
theorem delete_uid_assertion_panics :
    deleteDashboard cmC9 = .error .interfaceConversion := rfl

/-! ## Claim C10: unguarded folder-id type assertion in the folder resolver -/

/-- C10: the folder resolver is not total: when the list-response folder
matched by title lacks an `"id"` field (or carries a non-numeric one), and
likewise when the creation response does, the unguarded
`folder["id"].(float64)` assertion panics instead of returning the `0`
sentinel. -/
theorem folder_id_assertion_panics :
    hasCustomFolder (some [[("title", JValue.str "Custom")]]) "Custom" =
        .error .interfaceConversion ∧
      hasCustomFolder (some [[("title", JValue.str "Custom"), ("id", JValue.str "x")]])
          "Custom" = .error .interfaceConversion ∧
      createCustomFolder (some []) (some [("title", JValue.str "Custom")]) "Custom" =
        .error .interfaceConversion :=
  ⟨rfl, rfl, rfl⟩

/-! ## Claim C2: a parse failure in the deletion engine and its siblings -/

/-- A two-entry resource: the first payload is malformed JSON, the second
parses to `{"uid": "sib"}`. -/
def cmC2 : ConfigMap :=
  ⟨"n", "ns", [], [], [("a", none), ("b", some [("uid", JValue.str "sib")])], []⟩

/-- Refutation of C2 as stated: on `cmC2` the claim requires the sibling
entry `"b"` still to be processed (a DELETE for uid `"sib"`), but
`deleteDashboard` issues no DELETE request at all — the parse failure of
entry `"a"` makes the loop `return` (line 231), aborting every remaining
entry. -/
theorem delete_parse_failure_blocks_sibling :
    deleteDashboard cmC2 = .ok [] := rfl

/-- C2 (amended): in the deletion engine a JSON parse failure of one entry
aborts the deletion of that entry and of every entry after it in iteration
order; only entries processed before the failure are deleted. -/
theorem delete_parse_failure_aborts_rest (cm : ConfigMap)
    (k₁ : String) (d₁ : JObj) (s : String) (k₂ : String)
    (rest : List (String × Option JObj))
    (hdata : cm.data = (k₁, some d₁) :: (k₂, none) :: rest)
    (huid : JObj.get d₁ "uid" = JValue.str s) :
    deleteDashboard cm = .ok [grafanaURI ++ "/api/dashboards/uid/" ++ s] := by
  unfold deleteDashboard
  rw [hdata]
  simp [deleteGo, huid, typeAssertString]

/-- Instance of `delete_parse_failure_aborts_rest` on a concrete resource. -/
theorem delete_parse_failure_aborts_rest_witness :
    deleteDashboard
        ⟨"n", "ns", [], [],
          [("a", some [("uid", JValue.str "first")]), ("b", none),
            ("c", some [("uid", JValue.str "third")])], []⟩ =
      .ok [grafanaURI ++ "/api/dashboards/uid/" ++ "first"] :=
  delete_parse_failure_aborts_rest _ "a" [("uid", JValue.str "first")] "first" "b"
    [("c", some [("uid", JValue.str "third")])] rfl rfl

/-! ## Claim C8: the deletion target uid -/

/-- C8: for the first entry of a resource whose payload parses, the deletion
engine issues its DELETE to `/api/dashboards/uid/{uid}` where `uid` is the
payload's `uid` when present, else `DeriveUID(name, namespace)`
(`generateUID`). -/
theorem delete_uid_target (cm : ConfigMap) (key : String) (d : JObj)
    (rest : List (String × Option JObj)) (urls : List String)
    (hdata : cm.data = (key, some d) :: rest)
    (hok : deleteDashboard cm = .ok urls) :
    (JObj.get d "uid" = JValue.null →
        urls.head? =
          some (grafanaURI ++ "/api/dashboards/uid/" ++ generateUID cm.name cm.nspace)) ∧
      (∀ s : String, JObj.get d "uid" = JValue.str s →
        urls.head? = some (grafanaURI ++ "/api/dashboards/uid/" ++ s)) := by
  unfold deleteDashboard at hok
  rw [hdata] at hok
  constructor
  · intro hnull
    rw [show deleteGo cm ((key, some d) :: rest) =
          (match deleteGo cm rest with
           | .error p => .error p
           | .ok urls =>
             .ok ((grafanaURI ++ "/api/dashboards/uid/" ++ generateUID cm.name cm.nspace)
               :: urls)) by simp [deleteGo, hnull]] at hok
    cases h : deleteGo cm rest with
    | error p => rw [h] at hok; cases hok
    | ok us => rw [h] at hok; cases hok; rfl
  · intro s hs
    rw [show deleteGo cm ((key, some d) :: rest) =
          (match deleteGo cm rest with
           | .error p => .error p
           | .ok urls =>
             .ok ((grafanaURI ++ "/api/dashboards/uid/" ++ s) :: urls)) by
        simp [deleteGo, hs, typeAssertString]] at hok
    cases h : deleteGo cm rest with
    | error p => rw [h] at hok; cases hok
    | ok us => rw [h] at hok; cases hok; rfl

/-- Instance of `delete_uid_target` on a concrete resource without a payload
uid: the DELETE goes to the derived uid. -/
theorem delete_uid_target_witness :
    ([grafanaURI ++ "/api/dashboards/uid/" ++ generateUID "acme" "ns1"] : List String).head? =
      some (grafanaURI ++ "/api/dashboards/uid/" ++ generateUID "acme" "ns1") :=
  (delete_uid_target ⟨"acme", "ns1", [], [], [("d1", some [])], []⟩ "d1" [] []
      [grafanaURI ++ "/api/dashboards/uid/" ++ generateUID "acme" "ns1"] rfl rfl).1 rfl

/-! ## Claim C3: folder resolution is idempotent -/

theorem folderObj_get_title (i : Int) (s : String) :
    JObj.get [("id", JValue.num i), ("title", JValue.str s)] "title" = JValue.str s := rfl

theorem folderObj_get_id (i : Int) (s : String) :
    JObj.get [("id", JValue.num i), ("title", JValue.str s)] "id" = JValue.num i := rfl

theorem hasCustomFolderLoop_miss (fs : List (Int × String)) (t : String)
    (h : ∀ f ∈ fs, f.2 ≠ t) :
    hasCustomFolderLoop t
        (fs.map (fun f => [("id", JValue.num f.1), ("title", JValue.str f.2)])) = .ok 0 := by
  induction fs with
  | nil => rfl
  | cons f rest ih =>
    obtain ⟨i, s⟩ := f
    have hs : s ≠ t := h _ (List.mem_cons_self _ _)
    simp only [List.map_cons, hasCustomFolderLoop, folderObj_get_title]
    rw [if_neg (by simp [hs])]
    exact ih fun f hf => h f (List.mem_cons_of_mem _ hf)

theorem hasCustomFolderLoop_hit (fs : List (Int × String)) (i : Int) (t : String)
    (h : ∀ f ∈ fs, f.2 ≠ t) :
    hasCustomFolderLoop t
        ((fs ++ [(i, t)]).map (fun f => [("id", JValue.num f.1), ("title", JValue.str f.2)])) =
      .ok i := by
  induction fs with
  | nil =>
    simp only [List.nil_append, List.map_cons, List.map_nil, hasCustomFolderLoop,
      folderObj_get_title]
    simp [folderObj_get_id, typeAssertNum]
  | cons f rest ih =>
    obtain ⟨j, s⟩ := f
    have hs : s ≠ t := h _ (List.mem_cons_self _ _)
    simp only [List.cons_append, List.map_cons, hasCustomFolderLoop, folderObj_get_title]
    rw [if_neg (by simp [hs])]
    exact ih fun f hf => h f (List.mem_cons_of_mem _ hf)

/-- C3: invoking resolve-or-create twice with the same title against the
same dashboard service creates exactly one folder with that title: the
first call returns the freshly assigned id and appends the folder, the
second finds it in the list response, issues no create (the state is
unchanged), and returns the same id. -/
theorem folder_resolution_idempotent (st : GrafanaState) (title : String)
    (hnext : st.nextId ≠ 0)
    (hfresh : ∀ f ∈ st.folders, f.2 ≠ title) :
    resolveOrCreateFolder st title = .ok (st.nextId, st.afterCreate title) ∧
      resolveOrCreateFolder (st.afterCreate title) title =
        .ok (st.nextId, st.afterCreate title) ∧
      ((st.afterCreate title).folders.countP (fun f => f.2 == title)) = 1 := by
  have hmiss : hasCustomFolder st.listBody title = .ok 0 := by
    unfold hasCustomFolder GrafanaState.listBody
    exact hasCustomFolderLoop_miss st.folders title hfresh
  have hcreate : createCustomFolder st.listBody (st.createBody title) title =
      .ok st.nextId := by
    unfold createCustomFolder
    rw [hmiss]
    simp [GrafanaState.createBody, JObj.get, typeAssertNum]
  have hhit : hasCustomFolder (st.afterCreate title).listBody title = .ok st.nextId := by
    unfold hasCustomFolder GrafanaState.listBody GrafanaState.afterCreate
    exact hasCustomFolderLoop_hit st.folders st.nextId title hfresh
  have hcreate₂ : createCustomFolder (st.afterCreate title).listBody
      ((st.afterCreate title).createBody title) title = .ok st.nextId := by
    unfold createCustomFolder
    rw [hhit]
    show (if st.nextId = 0 then _ else Except.ok st.nextId) = Except.ok st.nextId
    rw [if_neg hnext]
  refine ⟨?_, ?_, ?_⟩
  · unfold resolveOrCreateFolder
    rw [hcreate, hmiss]
    show (if (0 : Int) = 0 then _ else _) = _
    rw [if_pos rfl]
  · unfold resolveOrCreateFolder
    rw [hcreate₂, hhit]
    show (if st.nextId = 0 then _ else Except.ok (st.nextId, st.afterCreate title)) =
      Except.ok (st.nextId, st.afterCreate title)
    rw [if_neg hnext]
  · unfold GrafanaState.afterCreate
    rw [List.countP_append, List.countP_eq_zero.mpr (by
      intro f hf
      simpa using hfresh f hf)]
    simp [List.countP_cons]

/-- Instance of `folder_resolution_idempotent` against a fresh service. -/
theorem folder_resolution_idempotent_witness :
    resolveOrCreateFolder ⟨[], 1⟩ "Custom" =
        .ok (1, GrafanaState.afterCreate ⟨[], 1⟩ "Custom") ∧
      resolveOrCreateFolder (GrafanaState.afterCreate ⟨[], 1⟩ "Custom") "Custom" =
        .ok (1, GrafanaState.afterCreate ⟨[], 1⟩ "Custom") ∧
      ((GrafanaState.afterCreate ⟨[], 1⟩ "Custom").folders.countP
        (fun f => f.2 == "Custom")) = 1 :=
  folder_resolution_idempotent ⟨[], 1⟩ "Custom" (by decide) (by simp)

/-! ## Claim C7: folder id 0 aborts the upsert -/

/-- C7: when the resource needs a folder and resolve-or-create yields the
`0` sentinel, the invocation stops right after the folder phase: the trace
holds the folder resolution only — no dashboard payload is parsed, no
upsert request is sent, no response is consumed (`k` is unchanged), and the
invocation returns (no retry). -/
theorem folder_zero_aborts (fuel : Nat) (lb : Option (List JObj)) (cb : Option JObj)
    (resps : Nat → UpsertResp) (cm : ConfigMap) (k : Nat)
    (hl : strToLower (mget cm.labels "general-folder") ≠ "true")
    (hzero : createCustomFolder lb cb (deriveFolderTitle cm) = .ok 0)
    (hfuel : 1 ≤ fuel) :
    updateDashboard fuel lb cb resps cm false k =
      .ok ([Event.folderResolve (deriveFolderTitle cm)], k) := by
  obtain ⟨n, rfl⟩ : ∃ n, fuel = n + 1 := ⟨fuel - 1, by omega⟩
  simp only [updateDashboard, updStep]
  rw [if_pos (Or.inr hl), hzero]
  rfl

/-- Instance of `folder_zero_aborts`: an empty folder list plus a malformed
create response makes `createCustomFolder` return the `0` sentinel, and the
upsert of the one-entry resource is aborted with no upsert POST. -/
theorem folder_zero_aborts_witness :
    updateDashboard 1 (some []) none (fun _ => ⟨200, ""⟩)
        ⟨"n", "ns", [], [], [("d", some [])], []⟩ false 0 =
      .ok ([Event.folderResolve (deriveFolderTitle ⟨"n", "ns", [], [], [("d", some [])], []⟩)], 0) :=
  folder_zero_aborts 1 (some []) none (fun _ => ⟨200, ""⟩)
    ⟨"n", "ns", [], [], [("d", some [])], []⟩ 0 (by decide) rfl (by decide)

/-! ## Claim C4: the submitted dashboard's uid and id -/

/-- Whatever the upsert responses are, processing a data entry whose payload
parsed to `d` first records the POST of `⟨folderID, overwrite,
buildDashboard cm d⟩`. -/
theorem updStep_loop_cons_head (lb : Option (List JObj)) (cb : Option JObj)
    (resps : Nat → UpsertResp) (cm : ConfigMap) (n : Nat) (b : Bool) (fid : Int)
    (key : String) (d : JObj) (rest : List (String × Option JObj)) (k : Nat)
    (evs : List Event) (k' : Nat)
    (hok : updStep lb cb resps cm (n + 1) b fid (.loop ((key, some d) :: rest)) k =
      .ok (evs, k')) :
    evs.head? = some (Event.upsertPost ⟨fid, b, buildDashboard cm d⟩) := by
  simp only [updStep] at hok
  (repeat' split at hok) <;> simp_all <;>
    (obtain ⟨h1, h2⟩ := hok; rw [← h1]; rfl)

/-- C4: for a payload that parses, the submitted request's dashboard has
`uid` equal to the payload's uid when one is present (non-nil), and to
`DeriveUID(name, namespace)` when absent; and its `id` is always nulled
before submission, regardless of the payload. (The resource uses the
general folder so that the submission is the first trace event.) -/
theorem upsert_uid_and_id (fuel : Nat) (lb : Option (List JObj)) (cb : Option JObj)
    (resps : Nat → UpsertResp) (cm : ConfigMap) (b : Bool) (k : Nat)
    (key : String) (d : JObj) (rest : List (String × Option JObj))
    (evs : List Event) (k' : Nat)
    (hdata : cm.data = (key, some d) :: rest)
    (hl : strToLower (mget cm.labels "general-folder") = "true")
    (hok : updateDashboard fuel lb cb resps cm b k = .ok (evs, k')) :
    evs.head? = some (Event.upsertPost ⟨0, b, buildDashboard cm d⟩) ∧
      JObj.get (buildDashboard cm d) "id" = JValue.null ∧
      JObj.get (buildDashboard cm d) "uid" =
        (if JObj.get d "uid" = JValue.null
         then JValue.str (generateUID cm.name cm.nspace)
         else JObj.get d "uid") := by
  refine ⟨?_, buildDashboard_get_id cm d, buildDashboard_get_uid cm d⟩
  have hne : mget cm.labels "general-folder" ≠ "" := by
    intro h0
    rw [h0] at hl
    exact absurd hl (by decide)
  have hgl : ¬(mget cm.labels "general-folder" = "" ∨
      strToLower (mget cm.labels "general-folder") ≠ "true") := by
    rintro (h | h)
    · exact hne h
    · exact h hl
  match fuel with
  | 0 => exact absurd hok (by simp [updateDashboard, updStep])
  | n + 1 =>
    simp only [updateDashboard, updStep] at hok
    rw [if_neg hgl, hdata] at hok
    match n with
    | 0 => exact absurd hok (by simp [updStep])
    | m + 1 => exact updStep_loop_cons_head lb cb resps cm m b 0 key d rest k evs k' hok

/-- Instance of `upsert_uid_and_id` on a resource whose single payload has
no uid: the submitted uid is the derived one and the id is nulled. -/
theorem upsert_uid_and_id_witness :
    ([Event.upsertPost ⟨0, false,
        buildDashboard ⟨"acme", "ns1", [("general-folder", "true")], [], [("d1", some [])], []⟩
          []⟩] : List Event).head? =
        some (Event.upsertPost ⟨0, false,
          buildDashboard ⟨"acme", "ns1", [("general-folder", "true")], [], [("d1", some [])], []⟩
            []⟩) ∧
      JObj.get (buildDashboard
        ⟨"acme", "ns1", [("general-folder", "true")], [], [("d1", some [])], []⟩ []) "id" =
        JValue.null ∧
      JObj.get (buildDashboard
        ⟨"acme", "ns1", [("general-folder", "true")], [], [("d1", some [])], []⟩ []) "uid" =
        (if JObj.get ([] : JObj) "uid" = JValue.null
         then JValue.str (generateUID "acme" "ns1")
         else JObj.get ([] : JObj) "uid") :=
  upsert_uid_and_id 3 none none (fun _ => ⟨200, ""⟩)
    ⟨"acme", "ns1", [("general-folder", "true")], [], [("d1", some [])], []⟩ false 0
    "d1" [] [] _ 1 rfl (by decide) rfl

/-! ## Claim C6: folder derivation and a single resolve per invocation -/

/-- When every upsert response is 200 the entry loop never resolves a
folder and submits every request with the loop's folder id. -/
theorem updStep_loop_all200 (lb : Option (List JObj)) (cb : Option JObj)
    (resps : Nat → UpsertResp) (cm : ConfigMap)
    (h200 : ∀ i, (resps i).status = 200) :
    ∀ (n : Nat) (entries : List (String × Option JObj)) (b : Bool) (fid : Int)
      (k : Nat) (evs : List Event) (k' : Nat),
      updStep lb cb resps cm n b fid (.loop entries) k = .ok (evs, k') →
      evs.filter Event.isResolve = [] ∧
        ∀ r : UpsertReq, Event.upsertPost r ∈ evs → r.folderId = fid := by
  intro n
  induction n with
  | zero =>
    intro entries b fid k evs k' hok
    exact absurd hok (by simp [updStep])
  | succ n ih =>
    intro entries b fid k evs k' hok
    match entries with
    | [] =>
      simp only [updStep] at hok
      obtain ⟨rfl, rfl⟩ : ([] : List Event) = evs ∧ k = k' := by simpa using hok
      simp
    | (key, none) :: rest =>
      simp only [updStep] at hok
      obtain ⟨rfl, rfl⟩ : ([] : List Event) = evs ∧ k = k' := by simpa using hok
      simp
    | (key, some d) :: rest =>
      simp only [updStep] at hok
      rw [if_neg (not_not_intro (h200 k))] at hok
      cases h1 : updStep lb cb resps cm n b fid (.loop rest) (k + 1) with
      | error p => rw [h1] at hok; simp at hok
      | ok pr =>
        obtain ⟨evs₀, k₀⟩ := pr
        rw [h1] at hok
        obtain ⟨rfl, rfl⟩ :
            Event.upsertPost ⟨fid, b, buildDashboard cm d⟩ :: evs₀ = evs ∧ k₀ = k' := by
          simpa using hok
        obtain ⟨hfil, hfold⟩ := ih rest b fid (k + 1) evs₀ k₀ h1
        refine ⟨by simp [List.filter, Event.isResolve, hfil], ?_⟩
        intro r hr
        rcases List.mem_cons.mp hr with h | h
        · cases h
          rfl
        · exact hfold r h

/-- C6: with the folder phase reached (no retries in flight: every response
is 200), the engine derives the folder as the claim states: when the
`general-folder` label equals `"true"` case-insensitively, folder
resolution is skipped and every submission keeps `folderId = 0`; otherwise
the folder title — the folder-override annotation's value when present and
non-empty, else `"Custom"` — is passed to resolve-or-create exactly once
for the whole invocation, however many data entries the resource has. -/
theorem folder_resolution_once (fuel : Nat) (lb : Option (List JObj)) (cb : Option JObj)
    (resps : Nat → UpsertResp) (cm : ConfigMap) (b : Bool) (k : Nat)
    (evs : List Event) (k' : Nat)
    (h200 : ∀ i, (resps i).status = 200)
    (hok : updateDashboard fuel lb cb resps cm b k = .ok (evs, k')) :
    if strToLower (mget cm.labels "general-folder") = "true" then
      evs.filter Event.isResolve = [] ∧
        ∀ r : UpsertReq, Event.upsertPost r ∈ evs → r.folderId = 0
    else
      evs.filter Event.isResolve =
        [Event.folderResolve
          (match cm.annotats.lookup
              "observability.open-cluster-management.io/dashboard-folder" with
           | some t => if t = "" then "Custom" else t
           | none => "Custom")] := by
  show if _ then _ else
      evs.filter Event.isResolve = [Event.folderResolve (deriveFolderTitle cm)]
  match fuel with
  | 0 => exact absurd hok (by simp [updateDashboard, updStep])
  | n + 1 =>
    simp only [updateDashboard, updStep] at hok
    by_cases hgl : strToLower (mget cm.labels "general-folder") = "true"
    · rw [if_pos hgl]
      have hne : mget cm.labels "general-folder" ≠ "" := by
        intro h0
        rw [h0] at hgl
        exact absurd hgl (by decide)
      rw [if_neg (by rintro (h | h); exacts [hne h, h hgl])] at hok
      exact updStep_loop_all200 lb cb resps cm h200 n cm.data b 0 k evs k' hok
    · rw [if_neg hgl]
      rw [if_pos (Or.inr hgl)] at hok
      cases hc : createCustomFolder lb cb (deriveFolderTitle cm) with
      | error p => rw [hc] at hok; simp at hok
      | ok fid =>
        rw [hc] at hok
        have hok' : (if fid = 0 then
              Except.ok ([Event.folderResolve (deriveFolderTitle cm)], k)
            else
              match updStep lb cb resps cm n b fid (.loop cm.data) k with
              | .error p => Except.error p
              | .ok (evs, k') =>
                Except.ok (Event.folderResolve (deriveFolderTitle cm) :: evs, k')) =
            Except.ok (evs, k') := hok
        by_cases hf : fid = 0
        · rw [if_pos hf] at hok'
          obtain ⟨rfl, rfl⟩ :
              [Event.folderResolve (deriveFolderTitle cm)] = evs ∧ k = k' := by
            simpa using hok'
          rfl
        · rw [if_neg hf] at hok'
          cases h1 : updStep lb cb resps cm n b fid (.loop cm.data) k with
          | error p => rw [h1] at hok'; simp at hok'
          | ok pr =>
            obtain ⟨evs₀, k₀⟩ := pr
            rw [h1] at hok'
            obtain ⟨rfl, rfl⟩ :
                Event.folderResolve (deriveFolderTitle cm) :: evs₀ = evs ∧ k₀ = k' := by
              simpa using hok'
            have hfil := (updStep_loop_all200 lb cb resps cm h200 n cm.data b fid k evs₀ k₀ h1).1
            simp [List.filter, Event.isResolve, hfil]

/-- Resource for the `folder_resolution_once` instance: folder-override
annotation set to `"Ops"`, no `general-folder` label, one data entry. -/
def cmW6def : ConfigMap :=
  ⟨"n", "ns", [], [("observability.open-cluster-management.io/dashboard-folder", "Ops")],
    [("d", some [])], []⟩

/-- The trace `updateDashboard` produces on `cmW6def` with all-200
responses, an empty folder list and a create response with id 7. -/
def evsW6 : List Event :=
  [Event.folderResolve "Ops",
   Event.upsertPost ⟨7, false, [("uid", JValue.str "n-ns"), ("id", JValue.null)]⟩]

/-- Instance of `folder_resolution_once` on `cmW6def`: exactly one folder
resolution, with the annotation-supplied title `"Ops"`. -/
theorem folder_resolution_once_witness :
    if strToLower (mget cmW6def.labels "general-folder") = "true" then
      evsW6.filter Event.isResolve = [] ∧
        ∀ r : UpsertReq, Event.upsertPost r ∈ evsW6 → r.folderId = 0
    else
      evsW6.filter Event.isResolve =
        [Event.folderResolve
          (match cmW6def.annotats.lookup
              "observability.open-cluster-management.io/dashboard-folder" with
           | some t => if t = "" then "Custom" else t
           | none => "Custom")] :=
  folder_resolution_once 5 (some []) (some [("id", JValue.num 7)]) (fun _ => ⟨200, ""⟩)
    cmW6def false 0 evsW6 1 (fun _ => rfl) rfl

/-! ## Claim C1: the version-mismatch retry -/

/-- Resource for the C1 refutation: general folder, a single well-formed
payload without a uid. -/
def cmC1 : ConfigMap :=
  ⟨"grafana-dashboard-x", "ns", [("general-folder", "true")], [], [("d", some [])], []⟩

/-- Upsert responses for the C1 refutation: two consecutive 412
version-mismatch responses, then success. -/
def respsC1 : Nat → UpsertResp := fun k =>
  if k < 2 then ⟨412, "precondition failed: version-mismatch"⟩ else ⟨200, "ok"⟩

/-- The dashboard `cmC1`'s payload is submitted as. -/
def dashC1 : JObj := [("uid", JValue.str "grafana-dashboard-x-ns"), ("id", JValue.null)]

/-- Refutation of C1 as stated: the claim allows exactly one automatic
retry — on `respsC1` (the second, overwrite=true attempt reports
version-mismatch again) it requires 2 submissions and "never retried
again". The code instead recurses once more (line 207 calls
`updateDashboard(obj, true)` with no depth guard), issuing a third upsert,
again with overwrite=true. -/
theorem retry_unbounded_cex :
    updateDashboard 9 none none respsC1 cmC1 false 0 =
      .ok ([.upsertPost ⟨0, false, dashC1⟩, .upsertPost ⟨0, true, dashC1⟩,
            .upsertPost ⟨0, true, dashC1⟩], 3) := rfl

/-- The submission trace an invocation with overwrite flag `b` produces on
a single-entry resource when the service reports version-mismatch `m`
times and then accepts: one POST per response, the first with `b`, every
later one (the recursive overwrite=true invocations) with `true`. -/
def vmTrace (dash : JObj) (b : Bool) (m : Nat) : List Event :=
  .upsertPost ⟨0, b, dash⟩ :: List.replicate m (.upsertPost ⟨0, true, dash⟩)

theorem vmTrace_succ (dash : JObj) (b : Bool) (m : Nat) :
    vmTrace dash b (m + 1) = .upsertPost ⟨0, b, dash⟩ :: vmTrace dash true m := by
  simp [vmTrace, List.replicate_succ]

/-- Core of the amended C1, tracking the response index `k₀`. -/
theorem vm_run (lb : Option (List JObj)) (cb : Option JObj) (resps : Nat → UpsertResp)
    (cm : ConfigMap) (key : String) (d : JObj)
    (hdata : cm.data = [(key, some d)])
    (hl : strToLower (mget cm.labels "general-folder") = "true") :
    ∀ (m fuel k₀ : Nat) (b : Bool),
      (∀ i, i < m → (resps (k₀ + i)).status = 412 ∧
        strContains (resps (k₀ + i)).body "version-mismatch" = true) →
      (resps (k₀ + m)).status = 200 →
      3 * (m + 1) ≤ fuel →
      updStep lb cb resps cm fuel b 0 .start k₀ =
        .ok (vmTrace (buildDashboard cm d) b m, k₀ + m + 1) := by
  have hne : mget cm.labels "general-folder" ≠ "" := by
    intro h0
    rw [h0] at hl
    exact absurd hl (by decide)
  have hgl : ¬(mget cm.labels "general-folder" = "" ∨
      strToLower (mget cm.labels "general-folder") ≠ "true") := by
    rintro (h | h)
    · exact hne h
    · exact h hl
  intro m
  induction m with
  | zero =>
    intro fuel k₀ b hvm h200 hfuel
    obtain ⟨f₂, rfl⟩ : ∃ f₂, fuel = f₂ + 1 + 1 + 1 := ⟨fuel - 3, by omega⟩
    simp only [updStep]
    rw [if_neg hgl, hdata]
    simp only [updStep]
    rw [if_neg (not_not_intro (by simpa using h200))]
    rfl
  | succ m ih =>
    intro fuel k₀ b hvm h200 hfuel
    obtain ⟨f₂, rfl⟩ : ∃ f₂, fuel = f₂ + 1 + 1 := ⟨fuel - 2, by omega⟩
    have h0 := hvm 0 (Nat.succ_pos m)
    rw [Nat.add_zero] at h0
    simp only [updStep]
    rw [if_neg hgl, hdata]
    simp only [updStep]
    rw [if_pos (by rw [h0.1]; decide), if_pos h0.1, if_pos h0.2]
    rw [ih f₂ (k₀ + 1) true
      (fun i hi => by
        have := hvm (i + 1) (by omega)
        rwa [show k₀ + (i + 1) = k₀ + 1 + i by omega] at this)
      (by rwa [show k₀ + 1 + m = k₀ + (m + 1) by omega])
      (by omega)]
    obtain ⟨f₃, rfl⟩ : ∃ f₃, f₂ = f₃ + 1 := ⟨f₂ - 1, by omega⟩
    simp only [updStep]
    rw [vmTrace_succ]
    rw [show k₀ + 1 + m + 1 = k₀ + (m + 1) + 1 by omega]
    simp

/-- C1 (amended): on a 412 response containing `"version-mismatch"` the
engine re-invokes the upsert for the whole resource with overwrite=true,
but the retry recursion is NOT bounded at one extra level: a retried
(overwrite=true) attempt that again reports version-mismatch triggers a
further retry. For a single-entry resource, `m` consecutive
version-mismatch responses followed by a success yield exactly `m + 1`
submissions — the first with the caller's overwrite flag, every later one
with overwrite=true — with no bound on `m` other than the service ceasing
to answer version-mismatch (and, in the model, the fuel standing in for
the Go call stack). -/
theorem retry_per_version_mismatch (lb : Option (List JObj)) (cb : Option JObj)
    (resps : Nat → UpsertResp) (cm : ConfigMap) (key : String) (d : JObj)
    (m fuel : Nat)
    (hdata : cm.data = [(key, some d)])
    (hl : strToLower (mget cm.labels "general-folder") = "true")
    (hvm : ∀ i, i < m → (resps i).status = 412 ∧
      strContains (resps i).body "version-mismatch" = true)
    (h200 : (resps m).status = 200)
    (hfuel : 3 * (m + 1) ≤ fuel) :
    updateDashboard fuel lb cb resps cm false 0 =
      .ok (vmTrace (buildDashboard cm d) false m, m + 1) := by
  have := vm_run lb cb resps cm key d hdata hl m fuel 0 false
    (fun i hi => by simpa using hvm i hi) (by simpa using h200) hfuel
  simpa [updateDashboard] using this

/-- Instance of `retry_per_version_mismatch` at `m = 1`: one
version-mismatch then success gives exactly two submissions. -/
theorem retry_per_version_mismatch_witness :
    updateDashboard 6 none none
        (fun k => if k < 1 then ⟨412, "version-mismatch"⟩ else ⟨200, ""⟩) cmC1 false 0 =
      .ok (vmTrace (buildDashboard cmC1 []) false 1, 2) :=
  retry_per_version_mismatch none none
    (fun k => if k < 1 then ⟨412, "version-mismatch"⟩ else ⟨200, ""⟩) cmC1 "d" [] 1 6
    rfl (by decide) (by decide) (by decide) (by decide)

end Gdl
